import Mathlib

/-!
Verification development for the recording-to-analysis pipeline of a
micro-phenomenology interview application.

The embedding covers:
* the analysis client (`getWelcomeMessage`, `analyzeTextTranscript`,
  `analyzeInterview`) from the service module, including the host
  primitives it relies on (`JSON.parse`, `FileReader.readAsDataURL`
  with base64 encoding, `String.prototype.split`), and
* the audio capture unit / session handlers (`startRecording`,
  `stopRecording`, the 1-second duration tick, `ondataavailable`)
  from the `InterviewRecorder` component, modelled as explicit state
  transitions that also emit an ordered trace of observable events.

The generative backend is external; it is modelled as a function from
the request actually built by the client to an outcome (a thrown error
or a response carrying optional text), exactly the two behaviours the
source distinguishes.
-/

/-- JavaScript JSON values as produced by `JSON.parse`.  Number literals
are kept as their source lexeme (a string), so no floating-point
semantics enter the model; none of the code under verification inspects
numeric values.  Object fields are kept in textual order; duplicate keys
are resolved last-wins by `Json.getField`, matching JS object semantics. -/
inductive Json where
  | null : Json
  | bool (b : Bool) : Json
  | num (lexeme : String) : Json
  | str (s : String) : Json
  | arr (elems : List Json) : Json
  | obj (fields : List (String × Json)) : Json
deriving Repr

/-- Property lookup on a parsed JSON value, as JS property access on the
result of `JSON.parse`: `none` models `undefined` (absent field).  For a
duplicate key the last occurrence wins, as in JS object literals. -/
def Json.getField : Json → String → Option Json
  | .obj fields, key =>
      (fields.reverse.find? (fun p => p.1 = key)).map (·.2)
  | _, _ => none

/-- Keys of a JSON object (empty for non-objects). -/
def Json.keys : Json → List String
  | .obj fields => fields.map (·.1)
  | _ => []

/-! ### A model of the host `JSON.parse` (ECMA-404 grammar)

`JSON.parse` is a host primitive, not repository code; it is modelled
here by a recursive-descent parser over the character list of the input
string, following the JSON grammar: optional whitespace, then a value
(object / array / string / number / `true` / `false` / `null`), then
optional whitespace and end of input.  Strings decode the JSON escapes;
`\u` escapes map through `Char.ofNat` (code points that are not scalar
values fall back to `Char.ofNat`'s default, a corner immaterial to every
input considered here).  Recursion is fuelled; the fuel supplied by
`jsonParse` exceeds any possible nesting depth of the input. -/

/-- JSON whitespace: space, tab, line feed, carriage return. -/
def isJsonWs (c : Char) : Bool :=
  c = ' ' ∨ c = '\t' ∨ c = '\n' ∨ c = '\r'

/-- Drop leading JSON whitespace. -/
def skipWs : List Char → List Char
  | [] => []
  | c :: rest => if isJsonWs c then skipWs rest else c :: rest

/-- Value of a hex digit, if any. -/
def hexVal (c : Char) : Option Nat :=
  if '0' ≤ c ∧ c ≤ '9' then some (c.toNat - '0'.toNat)
  else if 'a' ≤ c ∧ c ≤ 'f' then some (c.toNat - 'a'.toNat + 10)
  else if 'A' ≤ c ∧ c ≤ 'F' then some (c.toNat - 'A'.toNat + 10)
  else none

/-- Parse the body of a JSON string literal (the opening quote already
consumed), returning the decoded characters and the rest of the input. -/
def parseStringBody : Nat → List Char → Option (List Char × List Char)
  | 0, _ => none
  | _, [] => none
  | fuel + 1, c :: rest =>
    if c = '"' then some ([], rest)
    else if c = '\\' then
      match rest with
      | [] => none
      | e :: rest2 =>
        if e = '"' ∨ e = '\\' ∨ e = '/' then
          (parseStringBody fuel rest2).map (fun p => (e :: p.1, p.2))
        else if e = 'b' then
          (parseStringBody fuel rest2).map (fun p => ('\x08' :: p.1, p.2))
        else if e = 'f' then
          (parseStringBody fuel rest2).map (fun p => ('\x0C' :: p.1, p.2))
        else if e = 'n' then
          (parseStringBody fuel rest2).map (fun p => ('\n' :: p.1, p.2))
        else if e = 'r' then
          (parseStringBody fuel rest2).map (fun p => ('\r' :: p.1, p.2))
        else if e = 't' then
          (parseStringBody fuel rest2).map (fun p => ('\t' :: p.1, p.2))
        else if e = 'u' then
          match rest2 with
          | h1 :: h2 :: h3 :: h4 :: rest3 =>
            match hexVal h1, hexVal h2, hexVal h3, hexVal h4 with
            | some v1, some v2, some v3, some v4 =>
              (parseStringBody fuel rest3).map
                (fun p => (Char.ofNat (v1 * 4096 + v2 * 256 + v3 * 16 + v4) :: p.1, p.2))
            | _, _, _, _ => none
          | _ => none
        else none
    else if c.toNat < 32 then none
    else (parseStringBody fuel rest).map (fun p => (c :: p.1, p.2))

/-- Digits 0-9. -/
def isDigit (c : Char) : Bool := '0' ≤ c ∧ c ≤ '9'

/-- Longest prefix of decimal digits, and the rest. -/
def takeDigits : List Char → List Char × List Char
  | [] => ([], [])
  | c :: rest =>
    if isDigit c then
      let p := takeDigits rest
      (c :: p.1, p.2)
    else ([], c :: rest)

/-- Parse a JSON number lexeme `-? int frac? exp?`, returning the lexeme
characters and the rest of the input. -/
def parseNumberLexeme (cs : List Char) : Option (List Char × List Char) :=
  let (sign, cs1) :=
    match cs with
    | '-' :: rest => (['-'], rest)
    | _ => (([] : List Char), cs)
  match cs1 with
  | [] => none
  | d :: rest =>
    if ¬ isDigit d then none
    else
      -- integer part: a single '0', or a nonzero digit followed by digits
      let (intPart, cs2) :=
        if d = '0' then ([d], rest)
        else
          let p := takeDigits rest
          (d :: p.1, p.2)
      let (fracPart, cs3) :=
        match cs2 with
        | '.' :: f :: rest2 =>
          if isDigit f then
            let p := takeDigits rest2
            ('.' :: f :: p.1, p.2)
          else (([] : List Char), cs2)
        | _ => (([] : List Char), cs2)
      if cs3 ≠ cs2 ∧ fracPart = [] then none
      else
        match cs3 with
        | e :: rest3 =>
          if e = 'e' ∨ e = 'E' then
            let (esign, cs4) :=
              match rest3 with
              | '+' :: r => (['+'], r)
              | '-' :: r => (['-'], r)
              | _ => (([] : List Char), rest3)
            match cs4 with
            | d2 :: r2 =>
              if isDigit d2 then
                let p := takeDigits r2
                some (sign ++ intPart ++ fracPart ++ e :: esign ++ d2 :: p.1, p.2)
              else none
            | [] => none
          else some (sign ++ intPart ++ fracPart, cs3)
        | [] => some (sign ++ intPart ++ fracPart, cs3)

mutual

/-- Parse one JSON value (leading whitespace already skipped by callers). -/
def parseValue : Nat → List Char → Option (Json × List Char)
  | 0, _ => none
  | fuel + 1, cs =>
    match cs with
    | 'n' :: 'u' :: 'l' :: 'l' :: rest => some (.null, rest)
    | 't' :: 'r' :: 'u' :: 'e' :: rest => some (.bool true, rest)
    | 'f' :: 'a' :: 'l' :: 's' :: 'e' :: rest => some (.bool false, rest)
    | '"' :: rest =>
      (parseStringBody (fuel + 1) rest).map (fun p => (.str (String.mk p.1), p.2))
    | '\x7b' :: rest =>
      match skipWs rest with
      | '\x7d' :: rest2 => some (.obj [], rest2)
      | cs2 => (parseMembers fuel cs2).map (fun p => (.obj p.1, p.2))
    | '[' :: rest =>
      match skipWs rest with
      | ']' :: rest2 => some (.arr [], rest2)
      | cs2 => (parseElements fuel cs2).map (fun p => (.arr p.1, p.2))
    | _ =>
      (parseNumberLexeme cs).map (fun p => (.num (String.mk p.1), p.2))

/-- Parse a non-empty `key : value` member list of an object, up to and
including the closing brace. -/
def parseMembers : Nat → List Char → Option (List (String × Json) × List Char)
  | 0, _ => none
  | fuel + 1, cs =>
    match cs with
    | '"' :: rest =>
      match parseStringBody (fuel + 1) rest with
      | none => none
      | some (keyChars, rest2) =>
        match skipWs rest2 with
        | ':' :: rest3 =>
          match parseValue fuel (skipWs rest3) with
          | none => none
          | some (v, rest4) =>
            match skipWs rest4 with
            | ',' :: rest5 =>
              (parseMembers fuel (skipWs rest5)).map
                (fun p => ((String.mk keyChars, v) :: p.1, p.2))
            | '\x7d' :: rest5 => some ([(String.mk keyChars, v)], rest5)
            | _ => none
        | _ => none
    | _ => none

/-- Parse a non-empty element list of an array, up to and including the
closing bracket. -/
def parseElements : Nat → List Char → Option (List Json × List Char)
  | 0, _ => none
  | fuel + 1, cs =>
    match parseValue fuel cs with
    | none => none
    | some (v, rest) =>
      match skipWs rest with
      | ',' :: rest2 =>
        (parseElements fuel (skipWs rest2)).map (fun p => (v :: p.1, p.2))
      | ']' :: rest2 => some ([v], rest2)
      | _ => none

end

/-- Model of the host `JSON.parse`: `some v` when the string is a valid
JSON document denoting `v`, `none` when `JSON.parse` would throw a
`SyntaxError`. -/
def jsonParse (s : String) : Option Json :=
  match parseValue (s.length + 1) (skipWs s.data) with
  | some (v, rest) => if skipWs rest = [] then some v else none
  | none => none

/-! ### Base64 and the `FileReader.readAsDataURL` / `blobToBase64` model

`FileReader.readAsDataURL` is a host primitive: for a binary blob it
yields the string `"data:" ++ type ++ ";base64," ++ base64(bytes)`.
Bytes are modelled as `Nat` (meaningful values are `< 256`). -/

/-- The standard base64 alphabet, index 0 to 63. -/
def base64Alphabet : List Char :=
  "ABCDEFGHIJKLMNOPQRSTUVWXYZabcdefghijklmnopqrstuvwxyz0123456789+/".data

/-- Character for a 6-bit group. -/
def b64Char (n : Nat) : Char := base64Alphabet.getD n 'A'

/-- Index of a base64 character, `none` for characters outside the
alphabet (in particular for the padding character). -/
def b64Index (c : Char) : Option Nat :=
  base64Alphabet.findIdx? (fun a => a = c)

/-- Base64 encoding of a byte sequence, with `=` padding. -/
def base64Encode : List Nat → List Char
  | [] => []
  | [b1] => [b64Char (b1 / 4), b64Char (b1 % 4 * 16), '=', '=']
  | [b1, b2] => [b64Char (b1 / 4), b64Char (b1 % 4 * 16 + b2 / 16),
                 b64Char (b2 % 16 * 4), '=']
  | b1 :: b2 :: b3 :: rest =>
      b64Char (b1 / 4) :: b64Char (b1 % 4 * 16 + b2 / 16) ::
      b64Char (b2 % 16 * 4 + b3 / 64) :: b64Char (b3 % 64) ::
      base64Encode rest

/-- Base64 decoding, the inverse the transmission property is stated
against: groups of four characters decode to three bytes, with `=`
padding accepted only at the very end; `none` on any character outside
the alphabet in a data position or on a length that is not a multiple
of four. -/
def base64Decode : List Char → Option (List Nat)
  | [] => some []
  | c1 :: c2 :: c3 :: c4 :: rest =>
    match b64Index c1, b64Index c2 with
    | some n1, some n2 =>
      if c3 = '=' ∧ c4 = '=' ∧ rest = [] then some [n1 * 4 + n2 / 16]
      else
        match b64Index c3 with
        | some n3 =>
          if c4 = '=' ∧ rest = [] then
            some [n1 * 4 + n2 / 16, n2 % 16 * 16 + n3 / 4]
          else
            match b64Index c4 with
            | some n4 =>
              (base64Decode rest).map
                (fun bs => (n1 * 4 + n2 / 16) :: (n2 % 16 * 16 + n3 / 4) ::
                           (n3 % 4 * 64 + n4) :: bs)
            | none => none
        | none => none
    | _, _ => none
  | _ => none

/-- A JS `Blob`: a media-type tag and a byte payload. -/
structure Blob where
  type : String
  bytes : List Nat
deriving DecidableEq, Repr

/-- Model of `FileReader.readAsDataURL` applied to a binary blob: the
data URL `data:<type>;base64,<base64 payload>`, as a character list. -/
def readAsDataURL (blob : Blob) : List Char :=
  "data:".data ++ blob.type.data ++ ";base64,".data ++ base64Encode blob.bytes

/-- Model of JS `String.prototype.split` with a one-character separator. -/
def splitOnChar (sep : Char) : List Char → List (List Char)
  | [] => [[]]
  | c :: rest =>
    let r := splitOnChar sep rest
    if c = sep then [] :: r
    else
      match r with
      | [] => [[c]]
      | h :: t => (c :: h) :: t

/-- The service module's `blobToBase64`: read the blob as a data URL,
split on `','` and keep the part after the first comma (the JS source
indexes `[1]`; a data URL always contains that comma, `getD` supplies
the JS `undefined` corner with an empty string). -/
def blobToBase64 (blob : Blob) : String :=
  String.mk ((splitOnChar ',' (readAsDataURL blob)).getD 1 [])

/-! ### The backend call interface

`ai.models.generateContent` is an external service call.  The request
objects the service module builds are embedded literally; the backend's
behaviour is a parameter: for the request it receives it either throws
a JS error or returns a response whose `text` is an optional string
(`none` models `undefined`, and the empty string is falsy in the
source's truthiness tests). -/

/-- The `config` object passed to `generateContent`. -/
structure GenConfig where
  responseMimeType : Option String
deriving DecidableEq, Repr

/-- One part of a multi-part `contents` payload. -/
inductive GenPart where
  | inlineData (mimeType : String) (data : String) : GenPart
  | text (s : String) : GenPart
deriving DecidableEq, Repr

/-- The `contents` field: a bare prompt string or a part list. -/
inductive Contents where
  | str (s : String) : Contents
  | parts (ps : List GenPart) : Contents
deriving DecidableEq, Repr

/-- A `generateContent` request as the service module builds it. -/
structure GenRequest where
  model : String
  contents : Contents
  config : Option GenConfig
deriving DecidableEq, Repr

/-- A `generateContent` response; only `text` is consumed by the code. -/
structure GenResponse where
  text : Option String
deriving DecidableEq, Repr

/-- JS errors distinguishable in this development: `errObj msg` is
`new Error(msg)`; `badJson` is the `SyntaxError` thrown by `JSON.parse`
on invalid input. -/
inductive JsError where
  | errObj (msg : String) : JsError
  | badJson : JsError
deriving DecidableEq, Repr

/-- Outcome of one backend call: the call throws, or it resolves. -/
inductive BackendOutcome where
  | threw (e : JsError) : BackendOutcome
  | responded (r : GenResponse) : BackendOutcome
deriving DecidableEq, Repr

/-- The fixed model identifier used by all three entry points. -/
def modelId : String := "gemini-2.5-flash"

/-- The welcome-message prompt, verbatim from the source template
literal. -/
def welcomePrompt : String :=
  "
  You are a warm, insightful micro-phenomenology research guide.
  Address the user directly.
  Write a brief, welcoming message (max 50 words) for a user about to record an interview.
  1. Explain that the goal is to slow down and discover the specific \"how\" of a lived experience.
  2. Suggest they start by bringing to mind a single, concrete moment to explore.
  "

/-- The text-analysis prompt with the transcript interpolated at the
end, verbatim from the source template literal. -/
def textAnalysisPrompt (text : String) : String :=
  "
  You are an expert micro-phenomenology researcher. Your task is to analyze the following text transcript of an interview.

  Perform the following steps:
  1. **Structure**: specific logical segments. If speaker labels are present in the text, use them. If not, infer \x27Participant\x27 or \x27Subject\x27. Assign \x2700:00\x27 to timestamps if they are missing.
  2. **Preprocessing**: Identify \"satellite\" information. In micro-phenomenology, satellites are comments, judgments, generalizations, context, or theoretical knowledge that is NOT the direct lived experience. Separate these.
  3. **Diachronic Analysis**: Identify the temporal evolution of the specific experience described. Break it down into sequential phases (the \"film\" of the experience).
  4. **Synchronic Analysis**: For the key moments, identify the sensory modalities (Visual, Auditory, Kinesthetic/Bodily, etc.) and how they appear (submodalities, e.g., \"blurry image\", \"internal tension\").
  5. **Suggestions**: Suggest 2-3 follow-up questions the interviewer could ask to deepen the evocation of the \"how\".

  Return the result in the following JSON format:
  \x7b
    \"transcriptSegments\": [
      \x7b \"speaker\": \"Speaker Name\", \"text\": \"Segment text...\", \"timestamp\": \"00:00\" \x7d
    ],
    \"summary\": \"Brief summary of the target experience...\",
    \"diachronicStructure\": [
      \x7b \"phase\": \"Phase Name\", \"description\": \"What happened\", \"timestampEstimate\": \"approx time like 00:00\" \x7d
    ],
    \"synchronicStructure\": [
      \x7b \"modality\": \"Visual/Auditory/Kinesthetic/etc\", \"description\": \"Description of the sensation\", \"submodality\": \"specific quality\" \x7d
    ],
    \"satellites\": [\"Satellite comment 1\", \"Satellite comment 2\"],
    \"suggestions\": [\"Question 1\", \"Question 2\"]
  \x7d

  TRANSCRIPT TEXT:
  " ++ text ++ "
  "

/-- The audio-analysis prompt, verbatim from the source template
literal. -/
def audioAnalysisPrompt : String :=
  "
  You are an expert micro-phenomenology researcher. Your task is to analyze the following audio recording of an interview.

  Perform the following steps:
  1. **Transcription & Diarization**: Transcribe the interview verbatim. Identify speakers (e.g., \x27Interviewer\x27, \x27Interviewee\x27). structure this as a list of segments.
  2. **Preprocessing**: Identify \"satellite\" information. In micro-phenomenology, satellites are comments, judgments, generalizations, context, or theoretical knowledge that is NOT the direct lived experience. Separate these.
  3. **Diachronic Analysis**: Identify the temporal evolution of the specific experience described. Break it down into sequential phases (the \"film\" of the experience).
  4. **Synchronic Analysis**: For the key moments, identify the sensory modalities (Visual, Auditory, Kinesthetic/Bodily, etc.) and how they appear (submodalities, e.g., \"blurry image\", \"internal tension\").
  5. **Suggestions**: Suggest 2-3 follow-up questions the interviewer could ask to deepen the evocation of the \"how\".

  Return the result in the following JSON format:
  \x7b
    \"transcriptSegments\": [
      \x7b \"speaker\": \"Interviewer\", \"text\": \"Can you tell me...\", \"timestamp\": \"00:00\" \x7d,
      \x7b \"speaker\": \"Interviewee\", \"text\": \"Well, it started when...\", \"timestamp\": \"00:15\" \x7d
    ],
    \"summary\": \"Brief summary of the target experience...\",
    \"diachronicStructure\": [
      \x7b \"phase\": \"Phase Name\", \"description\": \"What happened\", \"timestampEstimate\": \"approx time like 00:30\" \x7d
    ],
    \"synchronicStructure\": [
      \x7b \"modality\": \"Visual/Auditory/Kinesthetic/etc\", \"description\": \"Description of the sensation\", \"submodality\": \"specific quality\" \x7d
    ],
    \"satellites\": [\"Satellite comment 1\", \"Satellite comment 2\"],
    \"suggestions\": [\"Question 1\", \"Question 2\"]
  \x7d
  "

/-- The request built by `getWelcomeMessage`: prompt contents, no
`config` object at all. -/
def welcomeRequest : GenRequest :=
  { model := modelId, contents := .str welcomePrompt, config := none }

/-- The request built by `analyzeTextTranscript` for a given transcript:
prompt contents and `responseMimeType: "application/json"`. -/
def textRequest (text : String) : GenRequest :=
  { model := modelId
    contents := .str (textAnalysisPrompt text)
    config := some { responseMimeType := some "application/json" } }

/-- The request built by `analyzeInterview` for a given audio blob: an
inline-data part tagged `audio/wav` carrying the base64-encoded payload,
the audio prompt as a text part, and
`responseMimeType: "application/json"`. -/
def interviewRequest (audioBlob : Blob) : GenRequest :=
  { model := modelId
    contents := .parts [.inlineData "audio/wav" (blobToBase64 audioBlob),
                        .text audioAnalysisPrompt]
    config := some { responseMimeType := some "application/json" } }

/-- The fixed fallback welcome string (the literal that appears twice in
the source of `getWelcomeMessage`). -/
def defaultWelcome : String :=
  "Welcome. Let\x27s explore the micro-dimensions of your experience. Please start by identifying a specific moment you wish to investigate."

/-- The service module's `getWelcomeMessage`: call the backend with the
welcome request; return `response.text || fallback`, and on a thrown
error return the same fallback literal (the `catch` branch).  The
`none`/empty-string split mirrors JS truthiness of `response.text`. -/
def getWelcomeMessage (backend : GenRequest → BackendOutcome) : String :=
  match backend welcomeRequest with
  | .responded response =>
    match response.text with
    | some t =>
      if t = "" then
        "Welcome. Let\x27s explore the micro-dimensions of your experience. Please start by identifying a specific moment you wish to investigate."
      else t
    | none =>
      "Welcome. Let\x27s explore the micro-dimensions of your experience. Please start by identifying a specific moment you wish to investigate."
  | .threw _ =>
    "Welcome. Let\x27s explore the micro-dimensions of your experience. Please start by identifying a specific moment you wish to investigate."

/-- The service module's `analyzeTextTranscript`.  Truthy `response.text`
is fed to `JSON.parse` and the parsed value is returned, cast (with no
runtime check) to the result type; falsy text throws
`new Error("No response text from Gemini")`; the `catch` logs and
rethrows, so a `JSON.parse` failure and a backend throw both propagate
unchanged. -/
def analyzeTextTranscript (backend : GenRequest → BackendOutcome)
    (text : String) : Except JsError Json :=
  match backend (textRequest text) with
  | .threw e => .error e
  | .responded response =>
    match response.text with
    | some t =>
      if t = "" then .error (.errObj "No response text from Gemini")
      else
        match jsonParse t with
        | some v => .ok v
        | none => .error .badJson
    | none => .error (.errObj "No response text from Gemini")

/-- The service module's `analyzeInterview`: base64-encode the blob via
`blobToBase64`, call the backend with the inline-data request, then
handle `response.text` exactly as `analyzeTextTranscript` does. -/
def analyzeInterview (backend : GenRequest → BackendOutcome)
    (audioBlob : Blob) : Except JsError Json :=
  match backend (interviewRequest audioBlob) with
  | .threw e => .error e
  | .responded response =>
    match response.text with
    | some t =>
      if t = "" then .error (.errObj "No response text from Gemini")
      else
        match jsonParse t with
        | some v => .ok v
        | none => .error .badJson
    | none => .error (.errObj "No response text from Gemini")

/-! ### The audio capture unit (`InterviewRecorder`)

The component's handlers are embedded as explicit state transitions.
The state collects the React state hooks (`isRecording`, `duration`,
`stream`) and the refs (`mediaRecorderRef`, `chunksRef`, `timerRef`,
the latter as a flag for whether the 1-second interval is set).  Each
transition also emits the ordered list of externally observable events
it performs: console logging, the `alert`, stopping individual stream
tracks, clearing the stream reference, and the `onSave` callback that
hands the finalized Audio Artifact onward for analysis. -/

/-- A microphone `MediaStream`, identified by its track handles. -/
structure MediaStream where
  tracks : List Nat
deriving DecidableEq, Repr

/-- Component state of `InterviewRecorder` relevant to capture. -/
structure RecorderState where
  isRecording : Bool
  duration : Nat
  stream : Option MediaStream
  hasMediaRecorder : Bool
  chunks : List (List Nat)
  timerActive : Bool
deriving DecidableEq, Repr

/-- State at component mount. -/
def initialRecorderState : RecorderState :=
  { isRecording := false, duration := 0, stream := none,
    hasMediaRecorder := false, chunks := [], timerActive := false }

/-- Externally observable events a handler performs, in order. -/
inductive REvent where
  | consoleError (msg : String) : REvent
  | alerted (msg : String) : REvent
  | trackStopped (track : Nat) : REvent
  | streamReleased : REvent
  | saved (blob : Blob) (duration : Nat) : REvent
deriving DecidableEq, Repr

/-- The component's `startRecording` handler.  Its one awaited input is
the result of `getUserMedia({ audio: true })`.  On grant it stores the
stream, creates the recorder, clears the chunk buffer, starts recording
and starts the interval timer — the `duration` state is not touched.  On
refusal the `catch` logs and raises the fixed alert; no state changes
happened before the failing `await`, so the state is returned intact. -/
def startRecording (s : RecorderState) (mic : Except JsError MediaStream) :
    RecorderState × List REvent :=
  match mic with
  | .error _ =>
      (s, [.consoleError "Error accessing microphone:",
           .alerted "Microphone access denied. Please allow microphone permissions."])
  | .ok mediaStream =>
      ({ s with stream := some mediaStream, hasMediaRecorder := true,
                chunks := [], isRecording := true, timerActive := true }, [])

/-- The recorder's `ondataavailable` handler: append the chunk to the
buffer when it is non-empty. -/
def handleDataAvailable (s : RecorderState) (chunk : List Nat) : RecorderState :=
  if 0 < chunk.length then { s with chunks := s.chunks ++ [chunk] } else s

/-- The 1-second interval tick: `setDuration(prev => prev + 1)` while
the interval is set. -/
def timerTick (s : RecorderState) : RecorderState :=
  if s.timerActive then { s with duration := s.duration + 1 } else s

/-- The component's `stopRecording` handler.  Guarded by
`mediaRecorderRef.current && isRecording`; when the guard fails nothing
at all happens.  Otherwise `isRecording` is cleared and the interval
stopped, and the recorder's `onstop` callback finalizes the buffered
chunks into an `audio/wav` blob, stops every track of the held stream,
clears the stream reference, and only then invokes `onSave` with the
blob and the current duration — in exactly that order. -/
def stopRecording (s : RecorderState) : RecorderState × List REvent :=
  if s.hasMediaRecorder ∧ s.isRecording then
    let blob : Blob := { type := "audio/wav", bytes := s.chunks.flatten }
    let trackEvents :=
      match s.stream with
      | some mediaStream => mediaStream.tracks.map REvent.trackStopped
      | none => []
    ({ s with isRecording := false, timerActive := false, stream := none },
     trackEvents ++ [REvent.streamReleased, REvent.saved blob s.duration])
  else (s, [])

/-- Inputs driving the capture unit over time. -/
inductive RAction where
  | start (mic : Except JsError MediaStream) : RAction
  | tick : RAction
  | dataChunk (chunk : List Nat) : RAction
  | stop : RAction
deriving Repr

/-- One step of the capture unit, accumulating emitted events. -/
def stepRecorder (se : RecorderState × List REvent) (a : RAction) :
    RecorderState × List REvent :=
  match a with
  | .start mic =>
      let r := startRecording se.1 mic
      (r.1, se.2 ++ r.2)
  | .tick => (timerTick se.1, se.2)
  | .dataChunk chunk => (handleDataAvailable se.1 chunk, se.2)
  | .stop =>
      let r := stopRecording se.1
      (r.1, se.2 ++ r.2)

/-- Run the capture unit from component mount over a list of inputs. -/
def runRecorder (actions : List RAction) : RecorderState × List REvent :=
  actions.foldl stepRecorder (initialRecorderState, [])

/-! ### Supporting lemmas -/

theorem b64Index_b64Char : ∀ n, n < 64 → b64Index (b64Char n) = some n := by
  decide

theorem b64Char_ne_pad : ∀ n, n < 64 → b64Char n ≠ '=' := by
  decide

theorem b64Char_ne_comma (n : Nat) : b64Char n ≠ ',' := by
  rcases Nat.lt_or_ge n 64 with h | h
  · exact (by decide : ∀ m, m < 64 → b64Char m ≠ ',') n h
  · have : b64Char n = 'A' := by
      unfold b64Char
      apply List.getD_eq_default
      simpa using h
    simp [this]

theorem pad_ne_comma : ('=' : Char) ≠ ',' := by decide

theorem comma_ne_b64Char (n : Nat) : ¬ (',' = b64Char n) :=
  fun h => b64Char_ne_comma n h.symm

theorem comma_ne_pad : ¬ ((',' : Char) = '=') := by decide

/-- Every character of a base64 encoding is an alphabet character or the
padding character; in particular it is never a comma. -/
theorem comma_not_mem_base64Encode (l : List Nat) :
    ',' ∉ base64Encode l := by
  induction l using base64Encode.induct with
  | case1 => simp [base64Encode]
  | case2 b1 =>
      simp [base64Encode, comma_ne_b64Char, comma_ne_pad]
  | case3 b1 b2 =>
      simp [base64Encode, comma_ne_b64Char, comma_ne_pad]
  | case4 b1 b2 b3 rest ih =>
      simp [base64Encode, comma_ne_b64Char, ih]

/-- Base64 decoding is a left inverse of encoding on byte sequences. -/
theorem base64Decode_base64Encode (l : List Nat) (h : ∀ b ∈ l, b < 256) :
    base64Decode (base64Encode l) = some l := by
  induction l using base64Encode.induct with
  | case1 => rfl
  | case2 b1 =>
      have hb1 : b1 < 256 := h b1 (by simp)
      have e1 : b64Index (b64Char (b1 / 4)) = some (b1 / 4) :=
        b64Index_b64Char _ (by omega)
      have e2 : b64Index (b64Char (b1 % 4 * 16)) = some (b1 % 4 * 16) :=
        b64Index_b64Char _ (by omega)
      simp [base64Encode, base64Decode, e1, e2]
      omega
  | case3 b1 b2 =>
      have hb1 : b1 < 256 := h b1 (by simp)
      have hb2 : b2 < 256 := h b2 (by simp)
      have e1 : b64Index (b64Char (b1 / 4)) = some (b1 / 4) :=
        b64Index_b64Char _ (by omega)
      have e2 : b64Index (b64Char (b1 % 4 * 16 + b2 / 16)) =
          some (b1 % 4 * 16 + b2 / 16) := b64Index_b64Char _ (by omega)
      have e3 : b64Index (b64Char (b2 % 16 * 4)) = some (b2 % 16 * 4) :=
        b64Index_b64Char _ (by omega)
      have ne3 : b64Char (b2 % 16 * 4) ≠ '=' := b64Char_ne_pad _ (by omega)
      simp [base64Encode, base64Decode, e1, e2, e3, ne3]
      omega
  | case4 b1 b2 b3 rest ih =>
      have hb1 : b1 < 256 := h b1 (by simp)
      have hb2 : b2 < 256 := h b2 (by simp)
      have hb3 : b3 < 256 := h b3 (by simp)
      have hrest : ∀ b ∈ rest, b < 256 := fun b hb => h b (by simp [hb])
      have e1 : b64Index (b64Char (b1 / 4)) = some (b1 / 4) :=
        b64Index_b64Char _ (by omega)
      have e2 : b64Index (b64Char (b1 % 4 * 16 + b2 / 16)) =
          some (b1 % 4 * 16 + b2 / 16) := b64Index_b64Char _ (by omega)
      have e3 : b64Index (b64Char (b2 % 16 * 4 + b3 / 64)) =
          some (b2 % 16 * 4 + b3 / 64) := b64Index_b64Char _ (by omega)
      have e4 : b64Index (b64Char (b3 % 64)) = some (b3 % 64) :=
        b64Index_b64Char _ (by omega)
      have ne3 : b64Char (b2 % 16 * 4 + b3 / 64) ≠ '=' :=
        b64Char_ne_pad _ (by omega)
      have ne4 : b64Char (b3 % 64) ≠ '=' := b64Char_ne_pad _ (by omega)
      simp [base64Encode, base64Decode, e1, e2, e3, e4, ne3, ne4, ih hrest]
      omega

theorem splitOnChar_of_not_mem (sep : Char) (cs : List Char) (h : sep ∉ cs) :
    splitOnChar sep cs = [cs] := by
  induction cs with
  | nil => rfl
  | cons c rest ih =>
      simp only [List.mem_cons, not_or] at h
      have hc : ¬ c = sep := fun hc => h.1 hc.symm
      simp [splitOnChar, ih h.2, hc]

theorem splitOnChar_around (sep : Char) (pre post : List Char)
    (h1 : sep ∉ pre) (h2 : sep ∉ post) :
    splitOnChar sep (pre ++ sep :: post) = [pre, post] := by
  induction pre with
  | nil => simp [splitOnChar, splitOnChar_of_not_mem sep post h2]
  | cons c rest ih =>
      simp only [List.mem_cons, not_or] at h1
      have hc : ¬ c = sep := fun hc => h1.1 hc.symm
      have ih2 := ih h1.2
      simp [splitOnChar, hc, List.append_eq, ih2]

/-- Reading an `audio/wav` blob as a data URL and keeping the part after
the comma yields exactly the base64 encoding of its bytes. -/
theorem blobToBase64_wav (bytes : List Nat) :
    blobToBase64 ⟨"audio/wav", bytes⟩ = String.mk (base64Encode bytes) := by
  have hurl : readAsDataURL ⟨"audio/wav", bytes⟩ =
      "data:audio/wav;base64".data ++ ',' :: base64Encode bytes := by
    show ("data:".data ++ "audio/wav".data ++ ";base64,".data)
        ++ base64Encode bytes = _
    rw [show ("data:".data ++ "audio/wav".data ++ ";base64,".data : List Char)
        = "data:audio/wav;base64".data ++ [','] from rfl]
    simp
  have hsplit : splitOnChar ',' (readAsDataURL ⟨"audio/wav", bytes⟩) =
      ["data:audio/wav;base64".data, base64Encode bytes] := by
    rw [hurl]
    exact splitOnChar_around ','
      "data:audio/wav;base64".data (base64Encode bytes)
      (by decide) (comma_not_mem_base64Encode bytes)
  unfold blobToBase64
  rw [hsplit]
  rfl

/-- While the interval is set, `k` ticks add `k` to the duration and
change nothing else (and emit no events). -/
theorem foldl_ticks (k : Nat) :
    ∀ (s : RecorderState) (evs : List REvent), s.timerActive = true →
    List.foldl stepRecorder (s, evs) (List.replicate k RAction.tick) =
      ({ s with duration := s.duration + k }, evs) := by
  induction k with
  | zero => intro s evs _; simp
  | succ k ih =>
      intro s evs hact
      have h1 : stepRecorder (s, evs) RAction.tick =
          ({ s with duration := s.duration + 1 }, evs) := by
        simp [stepRecorder, timerTick, hact]
      rw [List.replicate_succ, List.foldl_cons, h1,
          ih { s with duration := s.duration + 1 } evs hact]
      simp [Nat.add_assoc, Nat.add_comm 1 k]

/-- A JSON value has no binding for a key outside its key list. -/
theorem Json.getField_eq_none (j : Json) (key : String) (h : key ∉ j.keys) :
    j.getField key = none := by
  cases j with
  | obj fields =>
      simp only [Json.keys, List.mem_map, not_exists, not_and] at h
      have : fields.reverse.find? (fun p => p.1 = key) = none := by
        rw [List.find?_eq_none]
        intro p hp
        have hmem : p ∈ fields := List.mem_reverse.mp hp
        simpa using fun hk => h p hmem hk
      simp [Json.getField, this]
  | null => rfl
  | bool b => rfl
  | num n => rfl
  | str s => rfl
  | arr xs => rfl

/-! ### Claim theorems -/

/-- C2: for every backend response with no text at all (`response.text`
absent or the empty string), both `analyzeTextTranscript` and
`analyzeInterview` fail with the distinguished throw
`Error("No response text from Gemini")` — the code's realization of the
`BackendEmptyResponse` failure — and never return an Analysis Result,
in particular not a partially-empty one. -/
theorem emptyResponse_fails (backend : GenRequest → BackendOutcome)
    (resp : GenResponse) (text : String) (audioBlob : Blob)
    (hb : ∀ req, backend req = .responded resp)
    (ht : resp.text = none ∨ resp.text = some "") :
    analyzeTextTranscript backend text
        = .error (.errObj "No response text from Gemini") ∧
    analyzeInterview backend audioBlob
        = .error (.errObj "No response text from Gemini") := by
  rcases ht with h | h <;>
    constructor <;>
      simp [analyzeTextTranscript, analyzeInterview, hb, h]

/-- C2 witness: a backend stub answering `response.text = ""` makes the
audio-analysis entry point fail with the empty-response error rather
than return a result. -/
theorem emptyResponse_fails_witness :
    analyzeTextTranscript (fun _ => .responded ⟨some ""⟩) "hello"
        = .error (.errObj "No response text from Gemini") ∧
    analyzeInterview (fun _ => .responded ⟨some ""⟩) ⟨"audio/wav", [72]⟩
        = .error (.errObj "No response text from Gemini") :=
  emptyResponse_fails (fun _ => .responded ⟨some ""⟩) ⟨some ""⟩
    "hello" ⟨"audio/wav", [72]⟩ (fun _ => rfl) (Or.inr rfl)

/-- C4: `getWelcomeMessage` never fails outward: when the backend call
throws any error, and when it succeeds with absent or empty text, the
result is exactly the fixed fallback welcome string; when the backend
returns non-empty text the result is that text.  The function is total,
so no exception escapes in any case. -/
theorem welcomeMessage_never_fails (backend : GenRequest → BackendOutcome) :
    ((∃ e, backend welcomeRequest = .threw e) →
        getWelcomeMessage backend = defaultWelcome) ∧
    (∀ resp, backend welcomeRequest = .responded resp →
        resp.text = none ∨ resp.text = some "" →
        getWelcomeMessage backend = defaultWelcome) ∧
    (∀ resp t, backend welcomeRequest = .responded resp →
        resp.text = some t → t ≠ "" →
        getWelcomeMessage backend = t) := by
  refine ⟨?_, ?_, ?_⟩
  · rintro ⟨e, he⟩
    simp [getWelcomeMessage, he, defaultWelcome]
  · rintro resp hr (h | h) <;> simp [getWelcomeMessage, hr, h, defaultWelcome]
  · rintro resp t hr ht hne
    simp [getWelcomeMessage, hr, ht, hne]

/-- C4 witness: a throwing backend yields exactly the fallback string. -/
theorem welcomeMessage_never_fails_witness :
    getWelcomeMessage (fun _ => .threw (.errObj "network down")) = defaultWelcome :=
  (welcomeMessage_never_fails (fun _ => .threw (.errObj "network down"))).1
    ⟨.errObj "network down", rfl⟩

/-- C7: calling `stopRecording` when no recording is active — never
started (`mediaRecorderRef.current` null) or already stopped
(`isRecording` false) — is a complete no-op: the state is unchanged and
no event (no callback, no alert, no track stop) is emitted. -/
theorem stopRecording_noop (s : RecorderState)
    (h : s.hasMediaRecorder = false ∨ s.isRecording = false) :
    stopRecording s = (s, []) := by
  rcases h with h | h <;> simp [stopRecording, h]

/-- C7 witness: `stop()` in the freshly mounted `Idle` state does
nothing and does not throw. -/
theorem stopRecording_noop_witness :
    stopRecording initialRecorderState = (initialRecorderState, []) :=
  stopRecording_noop initialRecorderState (Or.inl rfl)

/-- C8: when microphone access is refused (`getUserMedia` rejects with
any error), `startRecording` leaves the entire state unchanged — still
not recording, no stream held, no duration timer started — and surfaces
the fixed user-visible alert, so the session stays usable for a retry. -/
theorem startRecording_denied (s : RecorderState) (e : JsError) :
    (startRecording s (.error e)).1 = s ∧
    (startRecording s (.error e)).1.isRecording = s.isRecording ∧
    (startRecording s (.error e)).1.stream = s.stream ∧
    (startRecording s (.error e)).1.timerActive = s.timerActive ∧
    REvent.alerted "Microphone access denied. Please allow microphone permissions."
        ∈ (startRecording s (.error e)).2 := by
  refine ⟨rfl, rfl, rfl, rfl, ?_⟩
  simp [startRecording]

/-- C9: strict machine-parseable JSON response mode
(`responseMimeType: "application/json"`) is requested on every
text-analysis and every audio-analysis backend call, and the
welcome-message call passes no `config` at all (free-form text). -/
theorem strictJson_mode (text : String) (audioBlob : Blob) :
    (textRequest text).config
        = some { responseMimeType := some "application/json" } ∧
    (interviewRequest audioBlob).config
        = some { responseMimeType := some "application/json" } ∧
    welcomeRequest.config = none ∧
    welcomeRequest.contents = .str welcomePrompt :=
  ⟨rfl, rfl, rfl, rfl⟩

/-- C1 counterexample: a backend response whose text is the JSON object
with only a `summary` field (the other five result fields missing) makes
`analyzeTextTranscript` return that object unvalidated: the `satellites`
field of the returned Analysis Result is absent (`none`, JS `undefined`)
rather than an empty well-typed container, so missing fields do not
degrade to empty sequences. -/
theorem missingFields_counterexample :
    analyzeTextTranscript
        (fun _ => .responded ⟨some "\x7b\"summary\": \"ok\"\x7d"⟩) "t"
        = .ok (.obj [("summary", .str "ok")]) ∧
    (Json.obj [("summary", .str "ok")]).getField "satellites" = none ∧
    (Json.obj [("summary", .str "ok")]).getField "satellites"
        ≠ some (.arr []) :=
  ⟨rfl, rfl, fun h => Option.noConfusion h⟩

/-- C1 amended: for every backend response whose text is present and
parses as a JSON value, both analysis entry points return that value
unchanged and throw no exception; but a missing field stays missing —
looking it up in the result yields `none` (JS `undefined`), not an
empty container. -/
theorem missingFields_returned_absent (backend : GenRequest → BackendOutcome)
    (resp : GenResponse) (t : String) (j : Json) (text : String)
    (audioBlob : Blob) (field : String)
    (hb : ∀ req, backend req = .responded resp)
    (ht : resp.text = some t) (hne : t ≠ "")
    (hj : jsonParse t = some j) (hf : field ∉ j.keys) :
    analyzeTextTranscript backend text = .ok j ∧
    analyzeInterview backend audioBlob = .ok j ∧
    j.getField field = none := by
  refine ⟨?_, ?_, Json.getField_eq_none j field hf⟩ <;>
    simp [analyzeTextTranscript, analyzeInterview, hb, ht, hne, hj]

/-- C1 amended witness: the one-field payload is returned as-is by both
entry points, with its `satellites` lookup `none`. -/
theorem missingFields_returned_absent_witness :
    analyzeTextTranscript
        (fun _ => .responded ⟨some "\x7b\"summary\": \"ok\"\x7d"⟩) "t"
        = .ok (.obj [("summary", .str "ok")]) ∧
    analyzeInterview
        (fun _ => .responded ⟨some "\x7b\"summary\": \"ok\"\x7d"⟩)
        ⟨"audio/wav", [72]⟩
        = .ok (.obj [("summary", .str "ok")]) ∧
    (Json.obj [("summary", .str "ok")]).getField "satellites" = none :=
  missingFields_returned_absent
    (fun _ => .responded ⟨some "\x7b\"summary\": \"ok\"\x7d"⟩)
    ⟨some "\x7b\"summary\": \"ok\"\x7d"⟩ "\x7b\"summary\": \"ok\"\x7d"
    (.obj [("summary", .str "ok")]) "t" ⟨"audio/wav", [72]⟩ "satellites"
    (fun _ => rfl) rfl (by simp) rfl (by simp [Json.keys])

/-- C3 counterexample: the backend text `"42"` is present and is not
the expected JSON result shape, yet both entry points return it as the
Analysis Result instead of failing with a `MalformedResult` error: the
cast after `JSON.parse` performs no shape validation. -/
theorem malformed_counterexample :
    analyzeTextTranscript (fun _ => .responded ⟨some "42"⟩) "t"
        = .ok (.num "42") ∧
    analyzeInterview (fun _ => .responded ⟨some "42"⟩) ⟨"audio/wav", [72]⟩
        = .ok (.num "42") :=
  ⟨rfl, rfl⟩

/-- C3 amended: when the response text is present but is not valid JSON
at all, both entry points propagate the raw `JSON.parse` failure (a
`SyntaxError`, not a distinct `MalformedResult` type) to the caller;
when the text is valid JSON of any shape — including shapes other than
the expected result shape — they return the parsed value with no shape
validation and no failure. -/
theorem malformed_propagates_parse_failure
    (backend : GenRequest → BackendOutcome) (resp : GenResponse)
    (t : String) (text : String) (audioBlob : Blob)
    (hb : ∀ req, backend req = .responded resp)
    (ht : resp.text = some t) (hne : t ≠ "") :
    (jsonParse t = none →
      analyzeTextTranscript backend text = .error .badJson ∧
      analyzeInterview backend audioBlob = .error .badJson) ∧
    (∀ j, jsonParse t = some j →
      analyzeTextTranscript backend text = .ok j ∧
      analyzeInterview backend audioBlob = .ok j) := by
  constructor
  · intro hj
    constructor <;> simp [analyzeTextTranscript, analyzeInterview, hb, ht, hne, hj]
  · intro j hj
    constructor <;> simp [analyzeTextTranscript, analyzeInterview, hb, ht, hne, hj]

/-- C3 amended witness: unparseable text makes both entry points fail
with the propagated parse failure. -/
theorem malformed_propagates_parse_failure_witness :
    analyzeTextTranscript (fun _ => .responded ⟨some "not json"⟩) "t"
        = .error .badJson ∧
    analyzeInterview (fun _ => .responded ⟨some "not json"⟩)
        ⟨"audio/wav", [72]⟩ = .error .badJson :=
  (malformed_propagates_parse_failure
    (fun _ => .responded ⟨some "not json"⟩) ⟨some "not json"⟩
    "not json" "t" ⟨"audio/wav", [72]⟩ (fun _ => rfl) rfl (by simp)).1 rfl

/-- C5: stopping an active recording hands onward a blob tagged
`audio/wav`, and `analyzeInterview` transmits exactly that tag on the
inline-data part together with the blob's payload base64-encoded —
decoding the transmitted data string recovers the original bytes. -/
theorem audio_transmitted_base64 (s : RecorderState)
    (hmr : s.hasMediaRecorder = true) (hrec : s.isRecording = true)
    (hbytes : ∀ b ∈ s.chunks.flatten, b < 256) :
    ∃ (blob : Blob) (d : String),
      REvent.saved blob s.duration ∈ (stopRecording s).2 ∧
      blob.type = "audio/wav" ∧
      (interviewRequest blob).contents =
        .parts [.inlineData "audio/wav" d, .text audioAnalysisPrompt] ∧
      base64Decode d.data = some blob.bytes := by
  refine ⟨⟨"audio/wav", s.chunks.flatten⟩,
    blobToBase64 ⟨"audio/wav", s.chunks.flatten⟩, ?_, rfl, rfl, ?_⟩
  · simp [stopRecording, hmr, hrec]
  · rw [blobToBase64_wav]
    exact base64Decode_base64Encode _ hbytes

/-- C5 witness: a concrete two-chunk recording round-trips its bytes
through the transmitted base64 payload under the `audio/wav` tag. -/
theorem audio_transmitted_base64_witness :
    ∃ (blob : Blob) (d : String),
      REvent.saved blob 3 ∈
        (stopRecording
          (⟨true, 3, some ⟨[0]⟩, true, [[72, 105], [33]], true⟩ :
            RecorderState)).2 ∧
      blob.type = "audio/wav" ∧
      (interviewRequest blob).contents =
        .parts [.inlineData "audio/wav" d, .text audioAnalysisPrompt] ∧
      base64Decode d.data = some blob.bytes :=
  audio_transmitted_base64
    { isRecording := true, duration := 3, stream := some ⟨[0]⟩,
      hasMediaRecorder := true, chunks := [[72, 105], [33]],
      timerActive := true } rfl rfl (by simp)

/-- C6: on stopping an active recording, artifact production completes
fully before the analysis handoff: the emitted trace is some prefix —
which contains the stop of every acquired track and the release of the
stream reference, and contains no save — followed by exactly one final
`onSave` carrying the finalized chunks as an `audio/wav` blob with the
current duration; at that point the held stream is already cleared, so
no analysis call is issued while the microphone stream is open. -/
theorem stop_releases_before_save (s : RecorderState) (ms : MediaStream)
    (hmr : s.hasMediaRecorder = true) (hrec : s.isRecording = true)
    (hs : s.stream = some ms) :
    ∃ pre : List REvent,
      (stopRecording s).2 =
        pre ++ [REvent.saved ⟨"audio/wav", s.chunks.flatten⟩ s.duration] ∧
      REvent.streamReleased ∈ pre ∧
      (∀ track ∈ ms.tracks, REvent.trackStopped track ∈ pre) ∧
      (∀ ev ∈ pre, ∀ blob d, ev ≠ REvent.saved blob d) ∧
      (stopRecording s).1.stream = none ∧
      (stopRecording s).1.isRecording = false ∧
      (stopRecording s).1.timerActive = false := by
  refine ⟨ms.tracks.map REvent.trackStopped ++ [REvent.streamReleased],
    ?_, ?_, ?_, ?_, ?_, ?_, ?_⟩
  · simp [stopRecording, hmr, hrec, hs]
  · simp
  · intro track htrack
    exact List.mem_append_left _ (List.mem_map.mpr ⟨track, htrack, rfl⟩)
  · intro ev hev blob d
    rcases List.mem_append.mp hev with h | h
    · rcases List.mem_map.mp h with ⟨track, _, rfl⟩
      exact fun hcontra => REvent.noConfusion hcontra
    · rcases List.mem_singleton.mp h with rfl
      exact fun hcontra => REvent.noConfusion hcontra
  · simp [stopRecording, hmr, hrec]
  · simp [stopRecording, hmr, hrec]
  · simp [stopRecording, hmr, hrec]

/-- C6 witness: a concrete recording with two stream tracks releases
both tracks and the stream before the single final save. -/
theorem stop_releases_before_save_witness :
    ∃ pre : List REvent,
      (stopRecording
          (⟨true, 5, some ⟨[4, 9]⟩, true, [[1, 2]], true⟩ :
            RecorderState)).2 =
        pre ++ [REvent.saved ⟨"audio/wav", [1, 2]⟩ 5] ∧
      REvent.streamReleased ∈ pre ∧
      (∀ track ∈ ([4, 9] : List Nat), REvent.trackStopped track ∈ pre) ∧
      (∀ ev ∈ pre, ∀ blob d, ev ≠ REvent.saved blob d) ∧
      (stopRecording
          (⟨true, 5, some ⟨[4, 9]⟩, true, [[1, 2]], true⟩ :
            RecorderState)).1.stream = none ∧
      (stopRecording
          (⟨true, 5, some ⟨[4, 9]⟩, true, [[1, 2]], true⟩ :
            RecorderState)).1.isRecording = false ∧
      (stopRecording
          (⟨true, 5, some ⟨[4, 9]⟩, true, [[1, 2]], true⟩ :
            RecorderState)).1.timerActive = false :=
  stop_releases_before_save
    (⟨true, 5, some ⟨[4, 9]⟩, true, [[1, 2]], true⟩ : RecorderState)
    ⟨[4, 9]⟩ rfl rfl rfl

/-- C10: `startRecording` never resets the elapsed-seconds counter: a
grant leaves `duration` at its prior value, and in a run that records
for `n` seconds, stops, then records again for `m` seconds within the
same component lifetime, the duration handed to `onSave` with the second
Audio Artifact is the cumulative `n + m`, while the first save carried
`n`. -/
theorem duration_cumulative_across_recordings :
    (∀ (s : RecorderState) (mic : Except JsError MediaStream),
        ((startRecording s mic).1).duration = s.duration) ∧
    (∀ (n m : Nat) (ms : MediaStream),
      ∃ evs : List REvent,
        (runRecorder (RAction.start (.ok ms) ::
            (List.replicate n RAction.tick ++ (RAction.stop ::
              RAction.start (.ok ms) ::
                (List.replicate m RAction.tick ++ [RAction.stop]))))).2
          = evs ++ [REvent.saved ⟨"audio/wav", []⟩ (n + m)] ∧
        REvent.saved ⟨"audio/wav", []⟩ n ∈ evs) := by
  constructor
  · intro s mic
    cases mic <;> rfl
  · intro n m ms
    have e1 : stepRecorder (initialRecorderState, ([] : List REvent))
        (RAction.start (.ok ms))
        = ({ isRecording := true, duration := 0, stream := some ms,
             hasMediaRecorder := true, chunks := [], timerActive := true },
           []) := rfl
    have e2 : stepRecorder
        ({ isRecording := true, duration := 0 + n, stream := some ms,
           hasMediaRecorder := true, chunks := [], timerActive := true },
         ([] : List REvent)) RAction.stop
        = ({ isRecording := false, duration := 0 + n, stream := none,
             hasMediaRecorder := true, chunks := [], timerActive := false },
           ms.tracks.map REvent.trackStopped ++
             [REvent.streamReleased,
              REvent.saved ⟨"audio/wav", []⟩ (0 + n)]) := by
      simp [stepRecorder, stopRecording]
    have e3 : stepRecorder
        ({ isRecording := false, duration := 0 + n, stream := none,
           hasMediaRecorder := true, chunks := [], timerActive := false },
         ms.tracks.map REvent.trackStopped ++
           [REvent.streamReleased, REvent.saved ⟨"audio/wav", []⟩ (0 + n)])
        (RAction.start (.ok ms))
        = ({ isRecording := true, duration := 0 + n, stream := some ms,
             hasMediaRecorder := true, chunks := [], timerActive := true },
           ms.tracks.map REvent.trackStopped ++
             [REvent.streamReleased, REvent.saved ⟨"audio/wav", []⟩ (0 + n)]) := by
      simp [stepRecorder, startRecording]
    have e4 : stepRecorder
        ({ isRecording := true, duration := 0 + n + m, stream := some ms,
           hasMediaRecorder := true, chunks := [], timerActive := true },
         ms.tracks.map REvent.trackStopped ++
           [REvent.streamReleased, REvent.saved ⟨"audio/wav", []⟩ (0 + n)])
        RAction.stop
        = ({ isRecording := false, duration := 0 + n + m, stream := none,
             hasMediaRecorder := true, chunks := [], timerActive := false },
           (ms.tracks.map REvent.trackStopped ++
             [REvent.streamReleased, REvent.saved ⟨"audio/wav", []⟩ (0 + n)]) ++
           (ms.tracks.map REvent.trackStopped ++
             [REvent.streamReleased,
              REvent.saved ⟨"audio/wav", []⟩ (0 + n + m)])) := by
      simp [stepRecorder, stopRecording]
    refine ⟨(ms.tracks.map REvent.trackStopped ++
        [REvent.streamReleased, REvent.saved ⟨"audio/wav", []⟩ n]) ++
        (ms.tracks.map REvent.trackStopped ++ [REvent.streamReleased]),
      ?_, by simp⟩
    unfold runRecorder
    rw [List.foldl_cons, e1, List.foldl_append,
        foldl_ticks n _ _ rfl]
    rw [List.foldl_cons, e2, List.foldl_cons, e3, List.foldl_append,
        foldl_ticks m _ _ rfl]
    rw [List.foldl_cons, e4, List.foldl_nil]
    simp
